import Mathlib

/-!
# Verification of the osprey strategy engine and trial runner

Shallow embedding of `osprey/strategies.py` and `osprey/execute_worker.py`.

Conventions of the embedding:
* Python floats are modelled by `ℚ` (exact arithmetic); the float comparison
  `sqrt(s) <= tol` is modelled by the equivalent `s ≤ tol^2` (both sides are
  nonnegative), so no square roots are needed.
* Parameter dictionaries are association lists `List (String × Value)` built
  by mapping over the ordered variable list of the search space (the source
  builds a `dict` the same way; variable names are unique in a valid space).
* Python exceptions are modelled with `Except StratError`.
* External capabilities (the search-space adapter of `search_space.py`, the
  SALib Sobol generator, GPy regression fitting, scipy `minimize`, the
  hyperopt optimizer, `np.log`/`np.exp`) are not part of the three source
  files; they are passed in as explicit function parameters or modelled from
  the spec's interface contracts (each such definition is marked).
-/

namespace Osprey

/-- A parameter value: numeric (int/float, modelled exactly) or categorical
string choice. -/
inductive Value where
  | num : ℚ → Value
  | str : String → Value
deriving DecidableEq, Repr

/-- Modelled from the spec: a search-space `Variable` of the external
Search-Space Adapter (spec section 6): a unique `name`, whether it is a
categorical (`EnumVariable`) with its `choices`, the bidirectional transforms
`point_from_gp`/`point_to_gp` between the unit interval and the native domain,
and the native-domain sampler backing `rvs`. -/
structure Variable where
  name : String
  isEnum : Bool
  choices : List Value
  fromGp : ℚ → Value
  toGp : Value → ℚ
  sample : Option Nat → Value

/-- A search space is the ordered list of variables. -/
abbrev SearchSpace := List Variable

/-- A parameter dictionary, as an association list in variable order. -/
abbrev Params := List (String × Value)

/-- Source `searchspace.n_dims` (spec: variable count). -/
def nDims (ss : SearchSpace) : Nat := ss.length

/-- The ordered variable names of a search space. -/
def varNames (ss : SearchSpace) : List String := ss.map Variable.name

/-- The key list of a parameter dictionary. -/
def keys (p : Params) : List String := p.map Prod.fst

/-- Dictionary lookup `params[name]` (defaulting; in the source a missing key
would raise, but every use looks up a name of the same search space). -/
def lookupValue (p : Params) (n : String) : Value :=
  ((p.find? (fun kv => kv.1 = n)).map Prod.snd).getD (Value.num 0)

/-- Modelled from the spec: the adapter's `point_to_gp(params) -> vector` —
one transformed coordinate per variable, in variable order. -/
def pointToGp (ss : SearchSpace) (p : Params) : List ℚ :=
  ss.map (fun v => v.toGp (lookupValue p v.name))

/-- Modelled from the spec: the adapter's `rvs(seed) -> params`, a
native-domain sample with one entry per variable (deterministic in the
optional seed in this model). -/
def rvs (ss : SearchSpace) (seed : Option Nat) : Params :=
  ss.map (fun v => (v.name, v.sample seed))

/-- One history entry `(params, scores, status)` as produced by the worker
loop (`execute_worker.py` line 61); `status` is the raw string stored in the
trial database. -/
structure HistoryEntry where
  params : Params
  scores : List ℚ
  status : String
deriving DecidableEq, Repr

abbrev History := List HistoryEntry

/-- Source `np.mean(scores)`. -/
def mean (xs : List ℚ) : ℚ := xs.sum / xs.length

/-- Source `np.var(scores)` (the square written as a product to stay
kernel-computable). -/
def variance (xs : List ℚ) : ℚ :=
  (xs.map (fun x => (x - mean xs) * (x - mean xs))).sum / xs.length

/-- The Python exceptions raised by the strategy engine. -/
inductive StratError where
  | configError (msg : String)
  | sequenceExhausted
  | unrecognizedStatus (s : String)
  | assertionError
  | zeroDivisionError
  | negativeVariance
deriving DecidableEq, Repr

/-- Source `BaseStrategy.is_repeated_suggestion`: exact equality against any
SUCCEEDED entry. -/
def isRepeatedSuggestion (params : Params) (history : History) : Bool :=
  history.any (fun e => params == e.params && e.status == "SUCCEEDED")

/-- Source `RandomSearch.suggest`: `searchspace.rvs(self.seed)` (the history is
ignored). -/
def randomSuggest (seed : Option Nat) (history : History) (ss : SearchSpace) :
    Params :=
  let _ := history
  rvs ss seed

/-! ## SobolSearch -/

/-- Source `SobolSearch._SKIP = int(1e4)`. -/
def sobolSKIP : Nat := 10000

/-- The mutable fields of a `SobolSearch` instance.  The precomputed numpy
array `self.sequence` is modelled as its length plus its row-indexing
function. -/
structure SobolState where
  sequence : Option (Nat × (Nat → List ℚ))
  length : Nat
  n_dims : Nat
  offset : Nat
  counter : Nat

/-- Source `SobolSearch.__init__(length)`. -/
def sobolInit (length : Nat) : SobolState :=
  { sequence := none, length := length, n_dims := 0, offset := 0, counter := 0 }

/-- Source `Sobol._from_unit_cube` / `GP._from_gp`: zip the result vector with the
variables and reverse-transform each coordinate. -/
def fromUnitCube (result : List ℚ) (ss : SearchSpace) : Params :=
  (result.zip ss).map (fun gv => (gv.2.name, gv.2.fromGp gv.1))

/-- The lazy initialization prefix of `SobolSearch.suggest`: on first call set
`n_dims`, `offset = len(history) + _SKIP` and build the sequence
(`_set_sequence`, i.e. `ss.sample(length + _SKIP, n_dims)` where `gen` is the
external SALib generator, modelled from the spec as a parameter). -/
def sobolEnsureSeq (gen : Nat → Nat → Nat → List ℚ) (st : SobolState)
    (history : History) (ss : SearchSpace) : SobolState :=
  match st.sequence with
  | none =>
      { st with
        n_dims := nDims ss
        offset := history.length + sobolSKIP
        sequence := some (st.length + sobolSKIP, gen (st.length + sobolSKIP) (nDims ss)) }
  | some _ => st

/-- Source `SobolSearch.suggest`: consume `sequence[offset + counter]`; an index past
the end of the array raises (`RuntimeError('Increase sobol sequence length')`,
the sequence-exhaustion error).  Returns the outcome together with the updated
instance state. -/
def sobolSuggest (gen : Nat → Nat → Nat → List ℚ) (st : SobolState)
    (history : History) (ss : SearchSpace) :
    Except StratError Params × SobolState :=
  let st1 := sobolEnsureSeq gen st history ss
  match st1.sequence with
  | none => (.error .sequenceExhausted, st1)
  | some ls =>
      let idx := st1.offset + st1.counter
      if idx < ls.1 then
        (.ok (fromUnitCube (ls.2 idx) ss), { st1 with counter := st1.counter + 1 })
      else
        (.error .sequenceExhausted, st1)

/-- A run of `n` successive `suggest` calls on one `SobolSearch` instance,
each with an empty history (the outputs in call order). -/
def sobolCalls (gen : Nat → Nat → Nat → List ℚ) (ss : SearchSpace) :
    Nat → SobolState → List (Except StratError Params)
  | 0, _ => []
  | n + 1, st =>
      let r := sobolSuggest gen st [] ss
      r.1 :: sobolCalls gen ss n r.2

/-! ## GridSearch -/

/-- The mutable fields of a `GridSearch` instance (`param_grid`, `current`). -/
structure GridState where
  param_grid : Option (List Params)
  current : Int

/-- Source `GridSearch.__init__`. -/
def gridInit : GridState := { param_grid := none, current := -1 }

/-- Cartesian product of the per-variable choice lists (first variable
slowest). -/
def cartProd : List (List Value) → List (List Value)
  | [] => [[]]
  | l :: ls => l.flatMap (fun x => (cartProd ls).map (fun c => x :: c))

/-- Modelled from the spec: sklearn's `ParameterGrid` over
`dict((v.name, v.choices) for v in searchspace)` — the Cartesian product of
all variable choices, indexable, of size the product of the choice counts. -/
def parameterGrid (ss : SearchSpace) : List Params :=
  (cartProd (ss.map (fun v => v.choices))).map (fun combo => (varNames ss).zip combo)

/-- The tail of `GridSearch.suggest`: `self.current += 1;
return self.param_grid[self.current % len(self.param_grid)]` (Python `%` on a
zero-sized grid raises `ZeroDivisionError`). -/
def gridStep (g : List Params) (st : GridState) :
    Except StratError (Params × GridState) :=
  let cur := st.current + 1
  if g.length = 0 then .error .zeroDivisionError
  else .ok (g.getD (cur % (g.length : Int)).toNat [], { st with current := cur })

/-- Source `GridSearch.suggest`: on first use require an all-enum search space and
build the grid, then return the next item modulo the grid size. -/
def gridSuggest (st : GridState) (history : History) (ss : SearchSpace) :
    Except StratError (Params × GridState) :=
  match st.param_grid with
  | none =>
      if ss.all (fun v => v.isEnum) then
        let g := parameterGrid ss
        gridStep g { st with param_grid := some g }
      else
        .error (.configError "GridSearchStrategy is defined only for all-enum search space")
  | some g => gridStep g st

/-- A run of `n` successive `suggest` calls on one `GridSearch` instance with
a fixed history (the outputs in call order). -/
def gridCalls (history : History) (ss : SearchSpace) :
    Nat → GridState → List (Except StratError Params)
  | 0, _ => []
  | n + 1, st =>
      match gridSuggest st history ss with
      | .ok (p, st') => .ok p :: gridCalls history ss n st'
      | .error e => .error e :: gridCalls history ss n st

/-! ## HyperoptTPE -/

/-- The hyperopt status constants `STATUS_OK` / `STATUS_RUNNING` /
`STATUS_FAIL` (opaque constants of the external hyperopt package). -/
inductive TpeStatus where
  | ok
  | running
  | fail
deriving DecidableEq, Repr

/-- The `result` field of a synthetic hyperopt trial record. -/
structure TpeResult where
  loss : Option ℚ
  status : TpeStatus
deriving DecidableEq, Repr

/-- The per-entry `result` construction of `HyperoptTPE.suggest`
(`strategies.py` lines 183-193): SUCCEEDED maps to
`loss = -np.mean(scores)` with `STATUS_OK`; PENDING to `STATUS_RUNNING`;
FAILED to `STATUS_FAIL`; anything else raises
`RuntimeError('unrecognized status: ...')`. -/
def tpeTrialResult (status : String) (scores : List ℚ) :
    Except StratError TpeResult :=
  if status = "SUCCEEDED" then .ok { loss := some (-(mean scores)), status := .ok }
  else if status = "PENDING" then .ok { loss := none, status := .running }
  else if status = "FAILED" then .ok { loss := none, status := .fail }
  else .error (.unrecognizedStatus status)

/-- The `vals` construction of `HyperoptTPE.suggest`: enum variables are
recorded by the list of matching choice indices (asserted to be a singleton),
other variables by their value wrapped in a length-1 list. -/
def tpeVals (ss : SearchSpace) (p : Params) :
    Except StratError (List (String × List Value)) :=
  ss.mapM (fun v =>
    if v.isEnum then
      let hits :=
        (v.choices.enum.filter (fun ic => ic.2 = lookupValue p v.name)).map Prod.fst
      if hits.length = 1 then
        .ok (v.name, hits.map (fun i => Value.num i))
      else .error .assertionError
    else .ok (v.name, [lookupValue p v.name]))

/-- Modelled from the spec: the adapter's `to_hyperopt() ->
mapping[name→domain-spec]` — one domain entry per variable name. -/
def toHyperopt (ss : SearchSpace) : List (String × Unit) :=
  ss.map (fun v => (v.name, ()))

/-- Source `HyperoptTPE.suggest`: rebuild the synthetic trials database from the
history (raising on a bad status or a non-unique enum match), then capture the
single point proposed by hyperopt `fmin`, modelled from the spec as a
per-name proposal `propose` over the keys of `to_hyperopt()`. -/
def tpeSuggest (propose : String → Value) (history : History)
    (ss : SearchSpace) : Except StratError Params := do
  let _ ← history.mapM (fun e => do
    let r ← tpeTrialResult e.status e.scores
    let v ← tpeVals ss e.params
    pure (r, v))
  pure ((toHyperopt ss).map (fun nv => (nv.1, propose nv.1)))

/-! ## GP (Bayesian optimization) -/

/-- A fitted GPy regression model, abstracted to the interface the strategy
uses: the training inputs `self.model.X`, the (possibly log-transformed)
training targets `self.model.Y`, and the external predictor
`self.model.predict` returning a predictive mean and variance. -/
structure Model where
  X : List (List ℚ)
  Y : List ℚ
  predict : List ℚ → ℚ × ℚ

/-- The configuration fields of a `GP` instance that the suggest path reads. -/
structure GPConfig where
  seeds : Nat
  optimizeBest : Bool
  predictFromGp : Bool
  acqName : String

/-- The mutable fields of a `GP` instance. -/
structure GPState where
  model : Option Model
  nDimsField : Option Nat
  xBest : Option Params
  yBest : Option ℚ
  yBestVar : Option ℚ
  transformed : Bool

/-- A fresh `GP` instance's mutable state (`GP.__init__`). -/
def gpInitState : GPState :=
  { model := none, nDimsField := none, xBest := none, yBest := none
    yBestVar := none, transformed := false }

/-- Statuses the data model permits (spec section 3); `_get_data` and the TPE
bridge raise on anything else. -/
def validStatuses (history : History) : Prop :=
  ∀ e ∈ history, e.status = "PENDING" ∨ e.status = "SUCCEEDED" ∨ e.status = "FAILED"

/-- The number of SUCCEEDED entries of a history (the length of `Y` built by
`_get_data`). -/
def countSucceeded (history : History) : Nat :=
  (history.filter (fun e => decide (e.status = "SUCCEEDED"))).length

/-- Source `GP._get_data`: partition the history into transformed SUCCEEDED points
`X` with score means `Y` and variances `V`, and transformed PENDING points
`ignore`; FAILED entries are dropped; an unrecognized status raises. -/
def getData : History → SearchSpace →
    Except StratError (List (List ℚ) × List ℚ × List ℚ × List (List ℚ))
  | [], _ => .ok ([], [], [], [])
  | e :: rest, ss =>
      if e.status = "FAILED" then getData rest ss
      else if e.status = "SUCCEEDED" then do
        let (X, Y, V, ig) ← getData rest ss
        pure (pointToGp ss e.params :: X, mean e.scores :: Y,
              variance e.scores :: V, ig)
      else if e.status = "PENDING" then do
        let (X, Y, V, ig) ← getData rest ss
        pure (X, Y, V, pointToGp ss e.params :: ig)
      else .error (.unrecognizedStatus e.status)

/-- Source `max(Y)` over a nonempty list (only called with `len(Y) >= seeds >= 1`;
the empty default is never reached on the source's paths). -/
def listMax : List ℚ → ℚ
  | [] => 0
  | y :: ys => ys.foldl max y

/-- Source `GP._transform_score`: `-log(-Y)` in the transformed regime (`logFn` is
the external `np.log`). -/
def transformScore (transformed : Bool) (logFn : ℚ → ℚ) (Y : List ℚ) : List ℚ :=
  if transformed then Y.map (fun y => -(logFn (-y))) else Y

/-- Source `GP._back_transform_score`: `-exp(-Y)` in the transformed regime (`expFn`
is the external `np.exp`). -/
def backTransformScore (transformed : Bool) (expFn : ℚ → ℚ) (y : ℚ) : ℚ :=
  if transformed then -(expFn (-y)) else y

/-- Source `GP._fit_model`: set the log-transform flag from `max(Y) < 0`, transform
the scores, and fit; the external `GPRegression(...).optimize_restarts` is the
parameter `fit`, whose `LinAlgError` is its `error` outcome, in which case
`self.model` is reset to `None`. -/
def fitModel (fit : List (List ℚ) → List ℚ → Except Unit Model)
    (logFn : ℚ → ℚ) (st : GPState) (X : List (List ℚ)) (Y : List ℚ) : GPState :=
  let transformed := listMax Y < 0
  let Ytrans := transformScore transformed logFn Y
  match fit X Ytrans with
  | .ok m => { st with transformed := transformed, model := some m }
  | .error _ => { st with transformed := transformed, model := none }

/-- Source `np.argmax` over a list (first index attaining the maximum). -/
def argmaxIdx (l : List ℚ) : Nat :=
  (l.enum.foldl (fun best cur => if cur.2 > best.2 then cur else best)
    ((0 : Nat), l.headD 0)).1

/-- Source `GP._is_within(point, X, tol=1E-2)` as written in the source:
`True in (np.sqrt(((point - X)**2).sum(axis=0)) <= tol)`.  `axis=0` sums the
squared differences over the *observation* rows, producing one column sum per
dimension; the test succeeds when some dimension's column sum is within
tolerance.  `sqrt(s) <= tol` is embedded as `s ≤ tolSq` with `tolSq = tol^2`
(both sides nonnegative, so the two are equivalent). -/
def isWithin (point : List ℚ) (X : List (List ℚ)) (tolSq : ℚ) : Bool :=
  (List.range point.length).any (fun d =>
    decide ((X.map (fun row =>
      (point.getD d 0 - row.getD d 0) * (point.getD d 0 - row.getD d 0))).sum ≤ tolSq))

/-- The duplicate test as the spec states it (named `...Spec` because it
follows the claim's words, to be compared with the source's `isWithin`): the
candidate lies within Euclidean distance `tol` of *some* observed row,
i.e. some row's squared distance is at most `tolSq = tol^2`. -/
def isWithinSpec (point : List ℚ) (X : List (List ℚ)) (tolSq : ℚ) : Bool :=
  X.any (fun row =>
    decide (((List.range point.length).map
      (fun d => (point.getD d 0 - row.getD d 0) * (point.getD d 0 - row.getD d 0))).sum
      ≤ tolSq))

/-- The numpy membership test `suggestion in ignore`, which is
`(ignore == suggestion).any()`: true when any single coordinate of any pending
row equals the corresponding coordinate of the suggestion. -/
def inIgnore (sugg : List ℚ) (ignore : List (List ℚ)) : Bool :=
  ignore.any (fun row =>
    (List.range sugg.length).any (fun d =>
      decide (row.getD d 0 = sugg.getD d 0)))

/-- Source `GP._from_gp` (identical in the source to `Sobol._from_unit_cube`). -/
def fromGp (result : List ℚ) (ss : SearchSpace) : Params :=
  fromUnitCube result ss

/-- Incumbent selection inside `GP.suggest` (`strategies.py` lines 533-543):
either re-optimize the predictive mean (`optimize_best`, external scipy
minimizer `gpBest`), or take the best observed training point and predict
there (`predict_from_gp`) or use its raw stored score with zero variance.
Returns `(x_best, y_best, y_best_var)`. -/
def gpIncumbent (cfg : GPConfig) (gpBest : Model → List ℚ) (m : Model) :
    List ℚ × ℚ × ℚ :=
  if cfg.optimizeBest then
    let x := gpBest m
    let p := m.predict x
    (x, p.1, p.2)
  else
    let idx := argmaxIdx m.Y
    let x := m.X.getD idx []
    if cfg.predictFromGp then
      let p := m.predict x
      (x, p.1, p.2)
    else (x, m.Y.getD idx 0, 0)

/-- Source `GP.suggest`.  External capabilities are parameters: `fit` is the
GPy regression fit (`_create_kernel` + `_fit_model`), `acqOpt` is
`_optimize_acquisition` (scipy multistart minimization of the acquisition,
reading the incumbent fields from the state), `gpBest` is `get_gp_best`
(scipy minimization of the negated predictive mean), `logFn`/`expFn` are
`np.log`/`np.exp`.  Control flow follows `strategies.py` lines 509-552. -/
def gpSuggest (cfg : GPConfig)
    (fit : List (List ℚ) → List ℚ → Except Unit Model)
    (acqOpt : GPState → Model → List ℚ)
    (gpBest : Model → List ℚ)
    (logFn expFn : ℚ → ℚ)
    (st : GPState) (history : History) (ss : SearchSpace) :
    Except StratError (Params × GPState) :=
  if history.length < cfg.seeds then
    .ok (randomSuggest none history ss, st)
  else
    let st1 := { st with nDimsField := some (nDims ss) }
    match getData history ss with
    | .error e => .error e
    | .ok (X, Y, _V, ignore) =>
        if Y.length < cfg.seeds then
          .ok (randomSuggest none history ss, st1)
        else
          let st2 := fitModel fit logFn st1 X Y
          match st2.model with
          | none => .ok (randomSuggest none history ss, st2)
          | some m =>
              let xyv := gpIncumbent cfg gpBest m
              let st3 := { st2 with
                yBest := some (backTransformScore st2.transformed expFn xyv.2.1)
                yBestVar := some xyv.2.2
                xBest := some (fromGp xyv.1 ss) }
              let suggestion := acqOpt st3 m
              if inIgnore suggestion ignore || isWithin suggestion X (1 / 10000) then
                .ok (randomSuggest none history ss, st3)
              else
                .ok (fromGp suggestion ss, st3)

/-- Source `GP._is_var_positive`: a negative predicted variance raises
`RuntimeError('Negative variance predicted from regression model.')`,
otherwise `True`. -/
def isVarPositive (v : ℚ) : Except StratError Bool :=
  if v < 0 then .error .negativeVariance else .ok true

/-- Source `GP._osprey` acquisition: predictive mean plus raw predictive variance. -/
def ospreyAcq (yMean yVar : ℚ) : ℚ := yMean + yVar

/-- The per-candidate objective `z(x)` inside `GP._optimize_acquisition`
(lines 399-417), evaluated at a point with predicted mean `yMean` and
variance `yVar`: the acquisitions named `osprey` and `ucb` bypass the
variance-positivity check; any other configured name (`ei` is the only one
the constructor admits) goes through `_is_var_positive`, whose error aborts
the acquisition call.  `af` is the configured acquisition function. -/
def zValue (acqName : String) (af : ℚ → ℚ → ℚ) (yMean yVar : ℚ) :
    Except StratError ℚ :=
  if acqName = "osprey" ∨ acqName = "ucb" then .ok (-(af yMean yVar))
  else do
    let pos ← isVarPositive yVar
    if pos then .ok (-(af yMean yVar)) else .ok 0

/-! ## Trial runner (`execute_worker.run_single_trial`) -/

/-- The persisted `Trial` record fields the runner touches (timestamps are
abstract ticks; `elapsed = completed - started`). -/
structure Trial where
  status : String
  parameters : Params
  mean_cv_score : Option ℚ
  cv_scores : Option (List ℚ)
  traceback : Option String
  started : Nat
  completed : Option Nat
  elapsed : Option Int
deriving DecidableEq, Repr

/-- The outcome of the `grid.fit` evaluation inside `run_single_trial`:
normal completion with scores, an ordinary `Exception` with its message, or
`KeyboardInterrupt`/`SystemExit` from external cancellation. -/
inductive EvalOutcome where
  | success (meanScore : ℚ) (cvScores : List ℚ)
  | failure (excMsg : String)
  | cancelled
deriving DecidableEq, Repr

/-- Modelled from the spec / Python `traceback.print_exc`: the captured trace
always begins with the nonempty header line before the exception text. -/
def formatTraceback (excMsg : String) : String :=
  "Traceback (most recent call last):\n" ++ excMsg

/-- What one `run_single_trial` call did: the final trial record, whether the
PENDING record and the terminal record were committed, whether the process is
exiting (`sys.exit(1)` on cancellation), and the normal return value. -/
structure RunOutcome where
  trial : Trial
  committedPending : Bool
  committedFinal : Bool
  exited : Bool
  returnValue : Option String
deriving DecidableEq, Repr

/-- Source `run_single_trial` (`execute_worker.py` lines 77-125): create the Trial
PENDING and commit; run the evaluation; on success set SUCCEEDED with the
scores, on an ordinary exception capture the traceback and set FAILED (and
return normally), on cancellation set FAILED and exit; in all cases the
`finally` block sets `completed`/`elapsed` and commits. -/
def runSingleTrial (params : Params) (outcome : EvalOutcome)
    (startTime endTime : Nat) : RunOutcome :=
  let t0 : Trial :=
    { status := "PENDING", parameters := params, mean_cv_score := none
      cv_scores := none, traceback := none, started := startTime
      completed := none, elapsed := none }
  let step :=
    match outcome with
    | .success m s =>
        ({ t0 with status := "SUCCEEDED", mean_cv_score := some m
                   cv_scores := some s }, false)
    | .failure msg =>
        ({ t0 with status := "FAILED"
                   traceback := some (formatTraceback msg) }, false)
    | .cancelled => ({ t0 with status := "FAILED" }, true)
  let t2 := { step.1 with
    completed := some endTime
    elapsed := some ((endTime : Int) - (startTime : Int)) }
  { trial := t2, committedPending := true, committedFinal := true
    exited := step.2
    returnValue := if step.2 then none else some t2.status }

/-! ## Concrete fixtures

Small concrete search spaces, histories and capability instances used by the
closed theorems and the witnesses. -/

/-- A concrete numeric variable whose transforms are the identity on `ℚ`. -/
def numVar (n : String) : Variable :=
  { name := n, isEnum := false, choices := []
    fromGp := Value.num
    toGp := fun v => match v with | .num q => q | .str _ => 0
    sample := fun _ => Value.num (1 / 2) }

/-- A concrete enum variable. -/
def enumVar (n : String) (cs : List Value) : Variable :=
  { name := n, isEnum := true, choices := cs
    fromGp := Value.num
    toGp := fun v => match v with | .num q => q | .str _ => 0
    sample := fun _ => cs.headD (Value.num 0) }

/-- Two-dimensional numeric search space used by the GP fixtures. -/
def ssNum2 : SearchSpace := [numVar "a", numVar "b"]

/-- History fixture: two SUCCEEDED trials at transformed points `(0,0)` and
`(1,1)` with score means `1` and `0`. -/
def hist4 : History :=
  [ { params := [("a", Value.num 0), ("b", Value.num 0)], scores := [1]
      status := "SUCCEEDED" }
  , { params := [("a", Value.num 1), ("b", Value.num 1)], scores := [0]
      status := "SUCCEEDED" } ]

/-- GP configuration fixture: defaults (`optimize_best=False`,
`predict_from_gp=True`, `osprey` acquisition) with `seeds = 2`. -/
def cfg4 : GPConfig :=
  { seeds := 2, optimizeBest := false, predictFromGp := true, acqName := "osprey" }

/-- Fit fixture: the regression fit succeeds, storing the training data with
a constant predictor. -/
def fit4 : List (List ℚ) → List ℚ → Except Unit Model :=
  fun X Y => .ok { X := X, Y := Y, predict := fun _ => (0, 0) }

/-- Acquisition-optimizer fixture: the acquisition optimum is the point
`(0,0)` — an exact duplicate of the first observed point of `hist4`. -/
def acq4 : GPState → Model → List ℚ := fun _ _ => [0, 0]

/-- Incumbent-optimizer fixture (unused on the `optimize_best=False` path). -/
def gpBest4 : Model → List ℚ := fun m => m.X.getD 0 []

/-- Sobol generator fixture: row `i` is the single coordinate `i` (injective,
so all rows are pairwise distinct). -/
def gen0 : Nat → Nat → Nat → List ℚ := fun _ _ i => [(i : ℚ)]

/-- One-dimensional search space for the Sobol witness. -/
def ssNum1 : SearchSpace := [numVar "x"]

/-- Two-variable all-enum search space of sizes (2,3) for the Grid claim. -/
def ssGrid23 : SearchSpace :=
  [ enumVar "a" [Value.str "x", Value.str "y"]
  , enumVar "b" [Value.num 0, Value.num 1, Value.num 2] ]

/-- Sobol generator fixture with two-coordinate rows. -/
def gen2 : Nat → Nat → Nat → List ℚ := fun _ _ i => [(i : ℚ), 0]

/-- Acquisition-optimizer fixture with a two-coordinate candidate. -/
def acq2 : GPState → Model → List ℚ := fun _ _ => [0, 0]

/-- TPE proposal fixture. -/
def propose0 : String → Value := fun _ => Value.num 0

/-- GP configuration fixture with `seeds = 1` (the default). -/
def cfgSeed1 : GPConfig :=
  { seeds := 1, optimizeBest := false, predictFromGp := true, acqName := "osprey" }

/-- Fit fixture whose regression fit always raises `LinAlgError`. -/
def fitFail : List (List ℚ) → List ℚ → Except Unit Model := fun _ _ => .error ()

/-! ## Well-formedness predicates tying per-strategy state to a search space -/

/-- A Sobol state is well-formed for a search space when any already-built
sequence has rows wide enough for the space (true of any state the source can
reach with a fixed search space: rows are built with width `n_dims`). -/
def wfSobol (st : SobolState) (ss : SearchSpace) : Prop :=
  ∀ len row, st.sequence = some (len, row) → ∀ i, nDims ss ≤ (row i).length

/-- A Grid state is well-formed for a search space when its grid, if already
built, was built from that space. -/
def wfGrid (st : GridState) (ss : SearchSpace) : Prop :=
  st.param_grid = none ∨ st.param_grid = some (parameterGrid ss)

/-- The pure characterization of `_get_data`'s `X` on a valid history. -/
def succX (history : History) (ss : SearchSpace) : List (List ℚ) :=
  (history.filter (fun e => decide (e.status = "SUCCEEDED"))).map
    (fun e => pointToGp ss e.params)

/-- The pure characterization of `_get_data`'s `Y` on a valid history. -/
def succY (history : History) : List ℚ :=
  (history.filter (fun e => decide (e.status = "SUCCEEDED"))).map
    (fun e => mean e.scores)

/-- The pure characterization of `_get_data`'s `V` on a valid history. -/
def succV (history : History) : List ℚ :=
  (history.filter (fun e => decide (e.status = "SUCCEEDED"))).map
    (fun e => variance e.scores)

/-- The pure characterization of `_get_data`'s `ignore` on a valid history. -/
def pendingX (history : History) (ss : SearchSpace) : List (List ℚ) :=
  (history.filter (fun e => decide (e.status = "PENDING"))).map
    (fun e => pointToGp ss e.params)

/-- The Sobol instance state after the lazy initialization of the first call
(empty history) and `k` successful consumptions. -/
def sobolMidState (gen : Nat → Nat → Nat → List ℚ) (L d k : Nat) : SobolState :=
  { sequence := some (L + sobolSKIP, gen (L + sobolSKIP) d)
    length := L, n_dims := d, offset := sobolSKIP, counter := k }

/-- The Grid instance state after building the grid and serving `i` calls. -/
def gridMidState (ss : SearchSpace) (i : Nat) : GridState :=
  { param_grid := some (parameterGrid ss), current := (i : Int) - 1 }

/-! ## Helper lemmas -/

lemma keys_rvs (ss : SearchSpace) (seed : Option Nat) :
    keys (rvs ss seed) = varNames ss := by
  simp [keys, rvs, varNames, List.map_map]

lemma length_rvs (ss : SearchSpace) (seed : Option Nat) :
    (rvs ss seed).length = nDims ss := by
  simp [rvs, nDims]

lemma keys_fromUnitCube (pts : List ℚ) (ss : SearchSpace)
    (h : nDims ss ≤ pts.length) :
    keys (fromUnitCube pts ss) = varNames ss
      ∧ (fromUnitCube pts ss).length = nDims ss := by
  constructor
  · have hsnd : (pts.zip ss).map Prod.snd = ss := List.map_snd_zip pts ss h
    calc keys (fromUnitCube pts ss)
        = ((pts.zip ss).map Prod.snd).map Variable.name := by
          simp [keys, fromUnitCube, List.map_map]
      _ = varNames ss := by rw [hsnd]; rfl
  · have h' : ss.length ≤ pts.length := h
    simp [fromUnitCube, nDims, List.length_zip]
    omega

lemma length_of_mem_cartProd :
    ∀ {ls : List (List Value)} {c}, c ∈ cartProd ls → c.length = ls.length := by
  intro ls
  induction ls with
  | nil =>
      intro c hc
      simp [cartProd] at hc
      simp [hc]
  | cons l ls ih =>
      intro c hc
      simp [cartProd] at hc
      obtain ⟨x, _, c', hc', rfl⟩ := hc
      simp [ih hc']

lemma parameterGrid_elem (ss : SearchSpace) {q : Params}
    (hq : q ∈ parameterGrid ss) :
    keys q = varNames ss ∧ q.length = nDims ss := by
  simp only [parameterGrid, List.mem_map] at hq
  obtain ⟨combo, hcombo, rfl⟩ := hq
  have hlen : combo.length = ss.length := by
    have := length_of_mem_cartProd hcombo
    simpa using this
  have hnames : (varNames ss).length = ss.length := by simp [varNames]
  constructor
  · have := List.map_fst_zip (varNames ss) combo (by omega)
    simpa [keys] using this
  · simp [List.length_zip, nDims]
    omega

lemma emod_toNat_lt (a : Int) (n : Nat) (h : n ≠ 0) :
    (a % (n : Int)).toNat < n := by
  have hpos : (0 : Int) < (n : Int) := by exact_mod_cast Nat.pos_of_ne_zero h
  have h1 : 0 ≤ a % (n : Int) := Int.emod_nonneg a (by exact_mod_cast h)
  have h2 : a % (n : Int) < (n : Int) := Int.emod_lt_of_pos a hpos
  omega

lemma getData_eq_of_valid (ss : SearchSpace) :
    ∀ history : History, validStatuses history →
      getData history ss
        = .ok (succX history ss, succY history, succV history, pendingX history ss) := by
  intro history
  induction history with
  | nil => intro _; simp [getData, succX, succY, succV, pendingX]
  | cons e rest ih =>
      intro hv
      have hrest : validStatuses rest := fun x hx => hv x (List.mem_cons_of_mem e hx)
      have he := hv e (List.mem_cons_self e rest)
      rcases he with hp | hs | hf
      · rw [getData]
        rw [if_neg (by simp [hp]), if_neg (by simp [hp]), if_pos hp]
        rw [ih hrest]
        simp [succX, succY, succV, pendingX, hp, Except.bind]
      · rw [getData]
        by_cases hfe : e.status = "FAILED"
        · rw [hs] at hfe; simp at hfe
        · rw [if_neg hfe, if_pos hs, ih hrest]
          simp [succX, succY, succV, pendingX, hs, Except.bind]
      · rw [getData]
        rw [if_pos hf, ih hrest]
        simp [succX, succY, succV, pendingX, hf]

lemma succY_length (history : History) :
    (succY history).length = countSucceeded history := by
  simp [succY, countSucceeded]

lemma sobolEnsureSeq_init (gen : Nat → Nat → Nat → List ℚ) (L : Nat)
    (ss : SearchSpace) :
    sobolEnsureSeq gen (sobolInit L) [] ss = sobolMidState gen L (nDims ss) 0 := by
  simp [sobolEnsureSeq, sobolInit, sobolMidState]

lemma sobolSuggest_mid_lt (gen : Nat → Nat → Nat → List ℚ) (L d k : Nat)
    (ss : SearchSpace) (hk : k < L) :
    sobolSuggest gen (sobolMidState gen L d k) [] ss
      = (.ok (fromUnitCube (gen (L + sobolSKIP) d (sobolSKIP + k)) ss),
         sobolMidState gen L d (k + 1)) := by
  have hidx : sobolSKIP + k < L + sobolSKIP := by omega
  simp [sobolSuggest, sobolEnsureSeq, sobolMidState, hidx]

lemma sobolSuggest_mid_exhausted (gen : Nat → Nat → Nat → List ℚ) (L d : Nat)
    (ss : SearchSpace) :
    sobolSuggest gen (sobolMidState gen L d L) [] ss
      = (.error .sequenceExhausted, sobolMidState gen L d L) := by
  have hidx : ¬ sobolSKIP + L < L + sobolSKIP := by omega
  simp [sobolSuggest, sobolEnsureSeq, sobolMidState, hidx]

lemma sobolSuggest_init (gen : Nat → Nat → Nat → List ℚ) (L : Nat)
    (ss : SearchSpace) :
    sobolSuggest gen (sobolInit L) [] ss
      = sobolSuggest gen (sobolMidState gen L (nDims ss) 0) [] ss := by
  unfold sobolSuggest
  rw [sobolEnsureSeq_init]
  rw [show sobolEnsureSeq gen (sobolMidState gen L (nDims ss) 0) [] ss
        = sobolMidState gen L (nDims ss) 0 from by simp [sobolEnsureSeq, sobolMidState]]

lemma sobolCalls_mid (gen : Nat → Nat → Nat → List ℚ) (L : Nat)
    (ss : SearchSpace) :
    ∀ m k, k + m = L →
      sobolCalls gen ss (m + 1) (sobolMidState gen L (nDims ss) k)
        = ((List.range m).map (fun i =>
            .ok (fromUnitCube (gen (L + sobolSKIP) (nDims ss) (sobolSKIP + (k + i))) ss)))
          ++ [.error .sequenceExhausted] := by
  intro m
  induction m with
  | zero =>
      intro k hk
      have hkL : k = L := by omega
      subst hkL
      simp [sobolCalls, sobolSuggest_mid_exhausted]
  | succ m ih =>
      intro k hk
      have hkL : k < L := by omega
      rw [show m + 1 + 1 = (m + 1) + 1 from rfl]
      rw [sobolCalls]
      rw [sobolSuggest_mid_lt gen L (nDims ss) k ss hkL]
      rw [ih (k + 1) (by omega)]
      simp only [List.range_succ_eq_map, List.map_cons, List.map_map,
        List.cons_append]
      simp [Function.comp, Nat.add_assoc, Nat.add_comm, Nat.add_left_comm]

lemma wfSobol_init (L : Nat) (ss : SearchSpace) : wfSobol (sobolInit L) ss := by
  intro len row h
  simp [sobolInit] at h

lemma gridStep_mid (ss : SearchSpace) (i : Nat) (history : History)
    (hG : (parameterGrid ss).length ≠ 0) :
    gridSuggest (gridMidState ss i) history ss
      = .ok ((parameterGrid ss).getD (i % (parameterGrid ss).length) [],
             gridMidState ss (i + 1)) := by
  unfold gridSuggest gridMidState gridStep
  simp only [if_neg hG]
  have hcur : ((i : Int) - 1) + 1 = (i : Int) := by ring
  rw [hcur]
  have hmod : ((i : Int) % ((parameterGrid ss).length : Int)).toNat
      = i % (parameterGrid ss).length := by
    rw [← Int.natCast_mod]
    exact Int.toNat_natCast _
  rw [hmod]
  have hst : ((i + 1 : Nat) : Int) - 1 = (i : Int) := by push_cast; ring
  simp [hst]

lemma gridSuggest_init (ss : SearchSpace) (history : History)
    (henum : ss.all (fun v => v.isEnum) = true) :
    gridSuggest gridInit history ss
      = gridSuggest (gridMidState ss 0) history ss := by
  unfold gridSuggest gridInit gridMidState
  simp [henum]

lemma gridCalls_mid (ss : SearchSpace) (history : History)
    (hG : (parameterGrid ss).length ≠ 0) :
    ∀ n i, gridCalls history ss n (gridMidState ss i)
      = (List.range n).map (fun j =>
          .ok ((parameterGrid ss).getD ((i + j) % (parameterGrid ss).length) [])) := by
  intro n
  induction n with
  | zero => intro i; rfl
  | succ n ih =>
      intro i
      rw [gridCalls, gridStep_mid ss i history hG]
      dsimp only
      rw [ih (i + 1)]
      simp only [List.range_succ_eq_map, List.map_cons, List.map_map,
        List.cons_append]
      simp [Function.comp, Nat.add_assoc, Nat.add_comm, Nat.add_left_comm]

/-- On either insufficient-data guard, `GP.suggest` returns the Random
suggestion before any kernel construction or model fit; the state is
untouched on the first guard and only `n_dims` is set on the second. -/
lemma gp_guard_eval (cfg : GPConfig)
    (fit : List (List ℚ) → List ℚ → Except Unit Model)
    (acqOpt : GPState → Model → List ℚ) (gpBest : Model → List ℚ)
    (logFn expFn : ℚ → ℚ) (st : GPState) (history : History) (ss : SearchSpace)
    (h : history.length < cfg.seeds
        ∨ (validStatuses history ∧ countSucceeded history < cfg.seeds)) :
    gpSuggest cfg fit acqOpt gpBest logFn expFn st history ss
      = .ok (randomSuggest none history ss,
          if history.length < cfg.seeds then st
          else { st with nDimsField := some (nDims ss) }) := by
  by_cases hl : history.length < cfg.seeds
  · rw [gpSuggest, if_pos hl, if_pos hl]
  · rcases h with h | ⟨hv, hc⟩
    · exact absurd h hl
    · rw [gpSuggest, if_neg hl, getData_eq_of_valid ss history hv, if_neg hl]
      have hy : (succY history).length < cfg.seeds := by
        rw [succY_length]; exact hc
      simp only [hy, if_pos]

lemma formatTraceback_ne_empty (msg : String) : formatTraceback msg ≠ "" := by
  intro h
  have hlen := congrArg String.length h
  rw [formatTraceback, String.length_append] at hlen
  have h1 : 0 < String.length "Traceback (most recent call last):\n" := by decide
  simp at hlen
  omega

lemma keys_randomSuggest (seed : Option Nat) (history : History)
    (ss : SearchSpace) : keys (randomSuggest seed history ss) = varNames ss :=
  keys_rvs ss seed

lemma length_randomSuggest (seed : Option Nat) (history : History)
    (ss : SearchSpace) : (randomSuggest seed history ss).length = nDims ss :=
  length_rvs ss seed

lemma except_bind_ok {ε α β : Type} {x : Except ε α} {f : α → Except ε β}
    {b : β} (h : x >>= f = .ok b) : ∃ a, x = .ok a ∧ f a = .ok b := by
  cases x with
  | error e => simp [Bind.bind, Except.bind] at h
  | ok a => exact ⟨a, rfl, by simpa [Bind.bind, Except.bind] using h⟩

lemma gridStep_ok_elem {ss : SearchSpace} {st0 st' : GridState} {p : Params}
    (h : gridStep (parameterGrid ss) st0 = .ok (p, st')) :
    keys p = varNames ss ∧ p.length = nDims ss := by
  rw [gridStep] at h
  by_cases hz : (parameterGrid ss).length = 0
  · rw [if_pos hz] at h; simp at h
  · rw [if_neg hz] at h
    simp only [Except.ok.injEq, Prod.mk.injEq] at h
    obtain ⟨hp, -⟩ := h
    have hlt := emod_toNat_lt (st0.current + 1) (parameterGrid ss).length hz
    have hmem : (parameterGrid ss).getD
        (((st0.current + 1) % ((parameterGrid ss).length : Int)).toNat) []
          ∈ parameterGrid ss := by
      rw [List.getD_eq_getElem _ _ hlt]
      exact List.getElem_mem _
    rw [← hp]
    exact parameterGrid_elem ss hmem

lemma wfSobol_ensureSeq (gen : Nat → Nat → Nat → List ℚ) (st : SobolState)
    (history : History) (ss : SearchSpace)
    (hgen : ∀ i, nDims ss ≤ (gen (st.length + sobolSKIP) (nDims ss) i).length)
    (hwf : wfSobol st ss) :
    wfSobol (sobolEnsureSeq gen st history ss) ss := by
  intro len row hseq i
  rw [sobolEnsureSeq] at hseq
  cases hs : st.sequence with
  | none =>
      rw [hs] at hseq
      dsimp only at hseq
      simp only [Option.some.injEq, Prod.mk.injEq] at hseq
      rw [← hseq.2]
      exact hgen i
  | some ls =>
      rw [hs] at hseq
      dsimp only at hseq
      exact hwf len row hseq i

/-! ## Claim theorems -/

/-- C1: for every valid search space, every strategy's `suggest` — Random,
Sobol, Grid, GP and TPE — returns (when it returns at all) a parameter
mapping whose key list is exactly the search space's variable-name list, of
cardinality `n_dims`. -/
theorem suggest_keys_match_searchspace (ss : SearchSpace)
    (hvalid : (varNames ss).Nodup) :
    (∀ seed history, keys (randomSuggest seed history ss) = varNames ss
        ∧ (randomSuggest seed history ss).length = nDims ss)
  ∧ (∀ gen st history p st',
        (∀ i, nDims ss ≤ (gen (st.length + sobolSKIP) (nDims ss) i).length) →
        wfSobol st ss →
        sobolSuggest gen st history ss = (.ok p, st') →
        keys p = varNames ss ∧ p.length = nDims ss)
  ∧ (∀ st history p st', wfGrid st ss →
        gridSuggest st history ss = .ok (p, st') →
        keys p = varNames ss ∧ p.length = nDims ss)
  ∧ (∀ cfg fit acqOpt gpBest logFn expFn st history p st',
        (∀ s m, nDims ss ≤ (acqOpt s m).length) →
        gpSuggest cfg fit acqOpt gpBest logFn expFn st history ss = .ok (p, st') →
        keys p = varNames ss ∧ p.length = nDims ss)
  ∧ (∀ propose history p,
        tpeSuggest propose history ss = .ok p →
        keys p = varNames ss ∧ p.length = nDims ss) := by
  have _ := hvalid
  refine ⟨?_, ?_, ?_, ?_, ?_⟩
  · intro seed history
    exact ⟨keys_randomSuggest seed history ss, length_randomSuggest seed history ss⟩
  · intro gen st history p st' hgen hwf heq
    rw [sobolSuggest] at heq
    have hwf1 := wfSobol_ensureSeq gen st history ss hgen hwf
    cases hseq : (sobolEnsureSeq gen st history ss).sequence with
    | none => rw [hseq] at heq; simp at heq
    | some ls =>
        obtain ⟨len, row⟩ := ls
        rw [hseq] at heq
        dsimp only at heq
        by_cases hidx : (sobolEnsureSeq gen st history ss).offset
            + (sobolEnsureSeq gen st history ss).counter < len
        · rw [if_pos hidx] at heq
          simp only [Prod.mk.injEq, Except.ok.injEq] at heq
          rw [← heq.1]
          exact keys_fromUnitCube _ ss (hwf1 len row hseq _)
        · rw [if_neg hidx] at heq
          simp at heq
  · intro st history p st' hwf heq
    rcases hwf with hnone | hsome
    · rw [gridSuggest, hnone] at heq
      dsimp only at heq
      by_cases henum : ss.all (fun v => v.isEnum) = true
      · rw [if_pos henum] at heq
        exact gridStep_ok_elem heq
      · rw [if_neg henum] at heq
        simp at heq
    · rw [gridSuggest, hsome] at heq
      dsimp only at heq
      exact gridStep_ok_elem heq
  · intro cfg fit acqOpt gpBest logFn expFn st history p st' hacq heq
    rw [gpSuggest] at heq
    by_cases h1 : history.length < cfg.seeds
    · rw [if_pos h1] at heq
      simp only [Except.ok.injEq, Prod.mk.injEq] at heq
      rw [← heq.1]
      exact ⟨keys_randomSuggest none history ss, length_randomSuggest none history ss⟩
    · rw [if_neg h1] at heq
      cases hgd : getData history ss with
      | error e => rw [hgd] at heq; simp at heq
      | ok XYVI =>
          obtain ⟨X, Y, V, ignore⟩ := XYVI
          rw [hgd] at heq
          dsimp only at heq
          by_cases h2 : Y.length < cfg.seeds
          · rw [if_pos h2] at heq
            simp only [Except.ok.injEq, Prod.mk.injEq] at heq
            rw [← heq.1]
            exact ⟨keys_randomSuggest none history ss,
              length_randomSuggest none history ss⟩
          · rw [if_neg h2] at heq
            cases hm : (fitModel fit logFn { st with nDimsField := some (nDims ss) }
                X Y).model with
            | none =>
                rw [hm] at heq
                dsimp only at heq
                simp only [Except.ok.injEq, Prod.mk.injEq] at heq
                rw [← heq.1]
                exact ⟨keys_randomSuggest none history ss,
                  length_randomSuggest none history ss⟩
            | some m =>
                rw [hm] at heq
                dsimp only at heq
                split at heq
                · simp only [Except.ok.injEq, Prod.mk.injEq] at heq
                  rw [← heq.1]
                  exact ⟨keys_randomSuggest none history ss,
                    length_randomSuggest none history ss⟩
                · simp only [Except.ok.injEq, Prod.mk.injEq] at heq
                  rw [← heq.1]
                  exact keys_fromUnitCube _ ss (hacq _ _)
  · intro propose history p heq
    rw [tpeSuggest] at heq
    obtain ⟨a, -, h2⟩ := except_bind_ok heq
    simp only [pure, Except.pure, Except.ok.injEq] at h2
    rw [← h2]
    constructor
    · simp [keys, toHyperopt, varNames, List.map_map]
    · simp [toHyperopt, nDims]

/-- C1 witness: one concrete suggestion per strategy on the two-variable
enum space. -/
theorem suggest_keys_witness :
    (keys (randomSuggest none [] ssGrid23) = varNames ssGrid23
      ∧ (randomSuggest none [] ssGrid23).length = nDims ssGrid23)
  ∧ keys [("a", Value.num 10000), ("b", Value.num 0)] = varNames ssGrid23
  ∧ keys [("a", Value.str "x"), ("b", Value.num 0)] = varNames ssGrid23
  ∧ keys (randomSuggest none [] ssGrid23) = varNames ssGrid23
  ∧ keys ((toHyperopt ssGrid23).map (fun nv => (nv.1, propose0 nv.1)))
      = varNames ssGrid23 := by
  have h := suggest_keys_match_searchspace ssGrid23 (by decide)
  refine ⟨h.1 none [], ?_, ?_, ?_, ?_⟩
  · have hgen : ∀ i, nDims ssGrid23
        ≤ (gen2 ((sobolInit 2).length + sobolSKIP) (nDims ssGrid23) i).length := by
      intro i
      simp [gen2, ssGrid23, nDims]
    have hsobEq : sobolSuggest gen2 (sobolInit 2) [] ssGrid23
        = (.ok [("a", Value.num 10000), ("b", Value.num 0)],
           (sobolSuggest gen2 (sobolInit 2) [] ssGrid23).2) := rfl
    exact (h.2.1 gen2 (sobolInit 2) [] _ _ hgen (wfSobol_init 2 ssGrid23) hsobEq).1
  · have hgrEq : gridSuggest gridInit [] ssGrid23
        = .ok ([("a", Value.str "x"), ("b", Value.num 0)],
            { param_grid := some (parameterGrid ssGrid23), current := 0 }) := by
      simp +decide [gridSuggest, gridStep, gridInit, parameterGrid, cartProd,
        varNames, ssGrid23, enumVar]
    exact (h.2.2.1 gridInit [] _ _ (Or.inl rfl) hgrEq).1
  · have hacq : ∀ s m, nDims ssGrid23 ≤ (acq2 s m).length := by
      intro s m
      simp [acq2, ssGrid23, nDims]
    exact (h.2.2.2.1 cfgSeed1 fit4 acq2 gpBest4 id id gpInitState []
      (randomSuggest none [] ssGrid23) gpInitState hacq rfl).1
  · exact (h.2.2.2.2 propose0 []
      ((toHyperopt ssGrid23).map (fun nv : String × Unit => (nv.1, propose0 nv.1)))
      rfl).1

/-- C2: every run of `run_single_trial` leaves the Trial in exactly one of
SUCCEEDED or FAILED (never PENDING) whether it returns or exits, sets and
commits `completed`/`elapsed` on every terminal transition, and on an
ordinary evaluation exception the Trial is FAILED with a non-empty captured
traceback while the function returns normally. -/
theorem trial_lifecycle (params : Params) (outcome : EvalOutcome)
    (startTime endTime : Nat) :
    ((runSingleTrial params outcome startTime endTime).trial.status = "SUCCEEDED"
      ∨ (runSingleTrial params outcome startTime endTime).trial.status = "FAILED")
  ∧ (runSingleTrial params outcome startTime endTime).trial.status ≠ "PENDING"
  ∧ (runSingleTrial params outcome startTime endTime).trial.completed = some endTime
  ∧ (runSingleTrial params outcome startTime endTime).trial.elapsed
      = some ((endTime : Int) - (startTime : Int))
  ∧ (runSingleTrial params outcome startTime endTime).committedFinal = true
  ∧ (outcome = .cancelled →
      (runSingleTrial params outcome startTime endTime).exited = true
      ∧ (runSingleTrial params outcome startTime endTime).trial.status = "FAILED")
  ∧ (∀ msg, outcome = .failure msg →
      (runSingleTrial params outcome startTime endTime).trial.status = "FAILED"
      ∧ (runSingleTrial params outcome startTime endTime).exited = false
      ∧ (runSingleTrial params outcome startTime endTime).returnValue = some "FAILED"
      ∧ ∃ tb, (runSingleTrial params outcome startTime endTime).trial.traceback = some tb
          ∧ tb ≠ "") := by
  cases outcome with
  | success m s =>
      refine ⟨Or.inl rfl, by simp [runSingleTrial], rfl, rfl, rfl, by simp, ?_⟩
      intro msg h
      simp at h
  | failure msg =>
      refine ⟨Or.inr rfl, by simp [runSingleTrial], rfl, rfl, rfl, by simp, ?_⟩
      intro msg' h
      refine ⟨rfl, rfl, rfl, formatTraceback msg, rfl, formatTraceback_ne_empty msg⟩
  | cancelled =>
      refine ⟨Or.inr rfl, by simp [runSingleTrial], rfl, rfl, rfl,
        fun _ => ⟨rfl, rfl⟩, ?_⟩
      intro msg h
      simp at h

/-- C2 witness: the exception outcome at a concrete input. -/
theorem trial_lifecycle_witness :
    (runSingleTrial [] (.failure "boom") 3 10).trial.status = "FAILED"
  ∧ (runSingleTrial [] (.failure "boom") 3 10).exited = false
  ∧ (runSingleTrial [] (.failure "boom") 3 10).trial.completed = some 10
  ∧ ∃ tb, (runSingleTrial [] (.failure "boom") 3 10).trial.traceback = some tb
      ∧ tb ≠ "" := by
  have h := trial_lifecycle [] (.failure "boom") 3 10
  obtain ⟨hs, he, hr, htb⟩ := h.2.2.2.2.2.2 "boom" rfl
  exact ⟨hs, he, h.2.2.1, htb⟩

/-- C7: the TPE bridge's synthetic result record maps SUCCEEDED to
`loss = -mean(scores)` with `ok` status, PENDING to `running` with no loss,
FAILED to `failed` with no loss, and raises on any other status. -/
theorem tpe_result_mapping (status : String) (scores : List ℚ) :
    tpeTrialResult "SUCCEEDED" scores
      = .ok { loss := some (-(mean scores)), status := .ok }
  ∧ tpeTrialResult "PENDING" scores = .ok { loss := none, status := .running }
  ∧ tpeTrialResult "FAILED" scores = .ok { loss := none, status := .fail }
  ∧ (status ∉ (["SUCCEEDED", "PENDING", "FAILED"] : List String) →
      tpeTrialResult status scores = .error (.unrecognizedStatus status)) := by
  refine ⟨rfl, rfl, rfl, ?_⟩
  intro h
  simp at h
  rw [tpeTrialResult, if_neg h.1, if_neg h.2.1, if_neg h.2.2]

/-- C7 witness: the error branch at a concrete unrecognized status. -/
theorem tpe_result_witness :
    tpeTrialResult "WEIRD" [1] = .error (.unrecognizedStatus "WEIRD")
  ∧ tpeTrialResult "FAILED" [1] = .ok { loss := none, status := .fail } := by
  exact ⟨(tpe_result_mapping "WEIRD" [1]).2.2.2 (by decide),
    (tpe_result_mapping "WEIRD" [1]).2.2.1⟩

/-- C9: evaluating a candidate during acquisition optimization raises the
negative-variance error when the configured acquisition is `ei` and the
predicted variance is negative, while the `osprey` acquisition bypasses the
positivity check and never errors, whatever the variance. -/
theorem acquisition_variance_check (af : ℚ → ℚ → ℚ) (yMean yVar : ℚ) :
    (yVar < 0 → zValue "ei" af yMean yVar = .error .negativeVariance)
  ∧ zValue "osprey" af yMean yVar = .ok (-(af yMean yVar)) := by
  constructor
  · intro h
    rw [zValue, if_neg (by decide)]
    rw [show isVarPositive yVar = .error .negativeVariance from by
      rw [isVarPositive, if_pos h]]
    rfl
  · rw [zValue, if_pos (Or.inl rfl)]

/-- C9 witness: a concrete negative variance under `ei` and under `osprey`. -/
theorem acquisition_variance_witness :
    zValue "ei" (fun m v => m + v) 0 (-1) = .error .negativeVariance
  ∧ zValue "osprey" (fun m v => m + v) 0 (-1) = .ok 1 := by
  constructor
  · exact (acquisition_variance_check (fun m v => m + v) 0 (-1)).1 (by norm_num)
  · rw [(acquisition_variance_check (fun m v => m + v) 0 (-1)).2]
    norm_num

/-- C10: `GridSearch.suggest` never reads its history argument: with the same
instance state and search space, any two histories produce identical results,
both for a single call and for any number of successive calls. -/
theorem grid_history_independent (st : GridState) (h1 h2 : History)
    (ss : SearchSpace) (n : Nat) :
    gridSuggest st h1 ss = gridSuggest st h2 ss
  ∧ gridCalls h1 ss n st = gridCalls h2 ss n st := by
  constructor
  · rfl
  · induction n generalizing st with
    | zero => rfl
    | succ n ih =>
        rw [gridCalls, gridCalls]
        rw [show gridSuggest st h1 ss = gridSuggest st h2 ss from rfl]
        cases hg : gridSuggest st h2 ss with
        | ok p =>
            obtain ⟨q, st'⟩ := p
            dsimp only
            rw [ih st']
        | error e =>
            dsimp only
            rw [ih st]

/-- C3: with fewer than `seeds` history entries, or fewer than `seeds`
SUCCEEDED entries after filtering, `GP.suggest` returns exactly
`RandomSearch().suggest(history, searchspace)`, leaves the stored model
untouched, and is independent of the fitting/acquisition capabilities (no
kernel is constructed, no surrogate is fit). -/
theorem gp_insufficient_data_delegates (cfg : GPConfig)
    (fit : List (List ℚ) → List ℚ → Except Unit Model)
    (acqOpt : GPState → Model → List ℚ) (gpBest : Model → List ℚ)
    (logFn expFn : ℚ → ℚ) (st : GPState) (history : History) (ss : SearchSpace)
    (h : history.length < cfg.seeds
        ∨ (validStatuses history ∧ countSucceeded history < cfg.seeds)) :
    (∃ st', gpSuggest cfg fit acqOpt gpBest logFn expFn st history ss
        = .ok (randomSuggest none history ss, st') ∧ st'.model = st.model)
  ∧ ∀ fit' acqOpt' gpBest' logFn' expFn',
      gpSuggest cfg fit acqOpt gpBest logFn expFn st history ss
        = gpSuggest cfg fit' acqOpt' gpBest' logFn' expFn' st history ss := by
  constructor
  · refine ⟨_, gp_guard_eval cfg fit acqOpt gpBest logFn expFn st history ss h, ?_⟩
    by_cases hl : history.length < cfg.seeds
    · rw [if_pos hl]
    · rw [if_neg hl]
  · intro fit' acqOpt' gpBest' logFn' expFn'
    rw [gp_guard_eval cfg fit acqOpt gpBest logFn expFn st history ss h,
        gp_guard_eval cfg fit' acqOpt' gpBest' logFn' expFn' st history ss h]

/-- C3 witness: an empty history against a `seeds = 2` configuration. -/
theorem gp_insufficient_data_witness :
    (∃ st', gpSuggest cfg4 fit4 acq4 gpBest4 id id gpInitState [] ssNum2
        = .ok (randomSuggest none [] ssNum2, st') ∧ st'.model = gpInitState.model)
  ∧ gpSuggest cfg4 fit4 acq4 gpBest4 id id gpInitState [] ssNum2
      = gpSuggest cfg4 fitFail acq2 gpBest4 id id gpInitState [] ssNum2 := by
  have h := gp_insufficient_data_delegates cfg4 fit4 acq4 gpBest4 id id
    gpInitState [] ssNum2 (Or.inl (by decide))
  exact ⟨h.1, h.2 fitFail acq2 gpBest4 id id⟩

/-- C8: if the surrogate fit raises the linear-algebra error, `GP.suggest`
returns the Random suggestion for that call with no exception propagating,
and the stored model is reset to `None`. -/
theorem gp_fit_failure_degrades (cfg : GPConfig)
    (fitF : List (List ℚ) → List ℚ → Except Unit Model)
    (acqOpt : GPState → Model → List ℚ) (gpBest : Model → List ℚ)
    (logFn expFn : ℚ → ℚ) (st : GPState) (history : History) (ss : SearchSpace)
    (hlen : cfg.seeds ≤ history.length)
    (hv : validStatuses history)
    (hc : cfg.seeds ≤ countSucceeded history)
    (hfail : ∀ A B, fitF A B = .error ()) :
    ∃ st', gpSuggest cfg fitF acqOpt gpBest logFn expFn st history ss
        = .ok (randomSuggest none history ss, st') ∧ st'.model = none := by
  rw [gpSuggest, if_neg (not_lt.mpr hlen), getData_eq_of_valid ss history hv]
  have hy : ¬ (succY history).length < cfg.seeds := by
    rw [succY_length]; exact not_lt.mpr hc
  dsimp only
  rw [if_neg hy]
  rw [show fitModel fitF logFn { st with nDimsField := some (nDims ss) }
        (succX history ss) (succY history)
      = { st with nDimsField := some (nDims ss)
                  transformed := listMax (succY history) < 0
                  model := none } from by
    rw [fitModel, hfail]]
  exact ⟨_, rfl, rfl⟩

/-- C8 witness: a two-entry SUCCEEDED history with an always-failing fit. -/
theorem gp_fit_failure_witness :
    ∃ st', gpSuggest cfg4 fitFail acq4 gpBest4 id id gpInitState hist4 ssNum2
        = .ok (randomSuggest none hist4 ssNum2, st') ∧ st'.model = none := by
  exact gp_fit_failure_degrades cfg4 fitFail acq4 gpBest4 id id gpInitState
    hist4 ssNum2 (by decide) (by unfold validStatuses; decide) (by decide)
    (fun _ _ => rfl)

/-- C4 (code bug): the source's `_is_within` sums squared differences over
the observation axis (`axis=0`) instead of the dimension axis, so a candidate
at Euclidean distance 0 from an observed SUCCEEDED point — the exact
duplicate `(0,0)` of the first observed point, with `(1,1)` also observed —
is *not* detected (the claim's Euclidean test detects it), and the full
`GP.suggest` call returns that duplicate candidate verbatim instead of
delegating to Random. -/
theorem gp_duplicate_check_axis_bug :
    isWithinSpec [0, 0] [[0, 0], [1, 1]] (1 / 10000) = true
  ∧ isWithin [0, 0] [[0, 0], [1, 1]] (1 / 10000) = false
  ∧ getData hist4 ssNum2 = .ok ([[0, 0], [1, 1]], [1, 0], [0, 0], [])
  ∧ (gpSuggest cfg4 fit4 acq4 gpBest4 id id gpInitState hist4 ssNum2).map Prod.fst
      = .ok (fromGp [0, 0] ssNum2)
  ∧ fromGp [0, 0] ssNum2
      = (hist4.headD { params := [], scores := [], status := "" }).params := by
  refine ⟨?_, ?_, ?_, ?_, ?_⟩
  · norm_num [isWithinSpec, List.range_succ]
  · norm_num [isWithin, List.range_succ]
  · simp +decide [getData, hist4, ssNum2, pointToGp, numVar, lookupValue, mean,
      variance, Except.bind, List.find?]
  · simp +decide [gpSuggest, cfg4, fit4, acq4, gpBest4, gpInitState, hist4, ssNum2,
      getData, pointToGp, numVar, lookupValue, mean, variance, Except.bind,
      List.find?, fitModel, transformScore, listMax, argmaxIdx, backTransformScore,
      gpIncumbent, fromGp, fromUnitCube, inIgnore, isWithin, randomSuggest, rvs,
      nDims, List.range_succ, Except.map]
    norm_num
  · simp +decide [fromGp, fromUnitCube, ssNum2, numVar, hist4]

/-- C5: a `SobolSearch` of length `L` started on an empty history serves
exactly `L` successful calls — consuming the pairwise-distinct sequence
points at offsets `SKIP..SKIP+L-1` (distinctness of the generated rows is the
modelled property of the external Sobol generator) — and the `(L+1)`-th call
fails with the sequence-exhaustion error. -/
theorem sobol_sequence_exhaustion (gen : Nat → Nat → Nat → List ℚ) (L : Nat)
    (ss : SearchSpace)
    (hdist : ∀ i j, i < L + sobolSKIP → j < L + sobolSKIP → i ≠ j →
        gen (L + sobolSKIP) (nDims ss) i ≠ gen (L + sobolSKIP) (nDims ss) j) :
    sobolCalls gen ss (L + 1) (sobolInit L)
      = ((List.range L).map (fun k =>
          .ok (fromUnitCube (gen (L + sobolSKIP) (nDims ss) (sobolSKIP + k)) ss)))
        ++ [.error .sequenceExhausted]
  ∧ ((List.range L).map
      (fun k => gen (L + sobolSKIP) (nDims ss) (sobolSKIP + k))).Nodup := by
  constructor
  · have hinit : sobolCalls gen ss (L + 1) (sobolInit L)
        = sobolCalls gen ss (L + 1) (sobolMidState gen L (nDims ss) 0) := by
      rw [sobolCalls, sobolCalls, sobolSuggest_init]
    rw [hinit, sobolCalls_mid gen L ss L 0 (by omega)]
    simp
  · refine List.Nodup.map_on ?_ (List.nodup_range L)
    intro a ha b hb heq
    rw [List.mem_range] at ha hb
    by_contra hne
    exact hdist (sobolSKIP + a) (sobolSKIP + b) (by omega) (by omega)
      (by omega) heq

/-- C5 witness: a concrete injective generator, `L = 2`, one dimension. -/
theorem sobol_sequence_witness :
    sobolCalls gen0 ssNum1 3 (sobolInit 2)
      = [.ok [("x", Value.num 10000)], .ok [("x", Value.num 10001)],
         .error .sequenceExhausted]
  ∧ ((List.range 2).map
      (fun k => gen0 (2 + sobolSKIP) (nDims ssNum1) (sobolSKIP + k))).Nodup := by
  have hdist : ∀ i j, i < 2 + sobolSKIP → j < 2 + sobolSKIP → i ≠ j →
      gen0 (2 + sobolSKIP) (nDims ssNum1) i ≠ gen0 (2 + sobolSKIP) (nDims ssNum1) j := by
    intro i j _ _ hne heq
    simp [gen0] at heq
    exact hne (by exact_mod_cast heq)
  have h := sobol_sequence_exhaustion gen0 2 ssNum1 hdist
  refine ⟨?_, h.2⟩
  rw [h.1]
  simp +decide [gen0, fromUnitCube, ssNum1, numVar, sobolSKIP, List.range_succ]
  norm_num

/-- C6: `GridSearch.suggest` raises a configuration error on first use unless
every variable is categorical; on an all-enum space the `n`-th call (from 0)
returns the grid element at index `n mod G` and no call fails with an
exhaustion error; concretely, on a (2,3)-sized space 8 calls return the 6
combinations in grid order followed by combinations 0 and 1 again. -/
theorem grid_behaviour :
    (∀ ss st history, st.param_grid = none →
        ss.all (fun v => v.isEnum) = false →
        gridSuggest st history ss
          = .error (.configError
              "GridSearchStrategy is defined only for all-enum search space"))
  ∧ (∀ ss history n, ss.all (fun v => v.isEnum) = true →
        (parameterGrid ss).length ≠ 0 →
        gridCalls history ss n gridInit
          = (List.range n).map (fun i =>
              .ok ((parameterGrid ss).getD (i % (parameterGrid ss).length) [])))
  ∧ gridCalls [] ssGrid23 8 gridInit
      = [ .ok [("a", Value.str "x"), ("b", Value.num 0)]
        , .ok [("a", Value.str "x"), ("b", Value.num 1)]
        , .ok [("a", Value.str "x"), ("b", Value.num 2)]
        , .ok [("a", Value.str "y"), ("b", Value.num 0)]
        , .ok [("a", Value.str "y"), ("b", Value.num 1)]
        , .ok [("a", Value.str "y"), ("b", Value.num 2)]
        , .ok [("a", Value.str "x"), ("b", Value.num 0)]
        , .ok [("a", Value.str "x"), ("b", Value.num 1)] ] := by
  refine ⟨?_, ?_, ?_⟩
  · intro ss st history hpg henum
    rw [gridSuggest, hpg]
    rw [if_neg (by simp [henum])]
  · intro ss history n henum hG
    cases n with
    | zero => rfl
    | succ n =>
        rw [gridCalls, gridSuggest_init ss history henum,
          gridStep_mid ss 0 history hG]
        dsimp only
        rw [gridCalls_mid ss history hG n 1]
        simp only [List.range_succ_eq_map, List.map_cons, List.map_map,
          List.cons_append]
        simp [Function.comp, Nat.add_comm]
  · simp +decide [gridCalls, gridSuggest, gridStep, gridInit, parameterGrid,
      cartProd, varNames, ssGrid23, enumVar]

/-- C6 witness: the wraparound indexing on the concrete (2,3) grid, through
the general modulo characterization. -/
theorem grid_behaviour_witness :
    gridCalls [] ssGrid23 8 gridInit
      = (List.range 8).map (fun i =>
          .ok ((parameterGrid ssGrid23).getD
            (i % (parameterGrid ssGrid23).length) [])) := by
  exact (grid_behaviour).2.1 ssGrid23 [] 8 (by decide) (by decide)

end Osprey
